import Mathlib

/-!
Verification of the perf-bench-orchestrator measurement-and-comparison engine
(`src/main.rs`), as a shallow embedding in Lean 4.

Machine integers are modelled as `Nat` with explicit `% 2^64` / `% 2^128`
reductions at the points where the Rust code casts (`as u64`, `as u128`).
Fallible or panicking code is modelled with `Option` / `Except`: in
particular, `Option.none` out of `scale` models the Rust division-by-zero
panic of `u128` division, and the error constructors of `RecError` model the
`?`-propagated failures and `expect` panic of `record`.
-/

namespace PerfBench

/-- Width of the native counter type `u64`. -/
def U64 : Nat := 2 ^ 64

/-- Width of the wide intermediate type `u128`. -/
def U128 : Nat := 2 ^ 128

/-- `perf_event::CountAndTime`: the raw tuple read from a hardware counter.
All three fields are `u64` in the source; here `Nat`, with `< U64` bounds
stated as hypotheses where they matter. -/
structure CountAndTime where
  count : Nat
  time_enabled : Nat
  time_running : Nat
deriving Repr, DecidableEq

/-- `fn scale(CountAndTime { count, time_enabled, time_running }: CountAndTime) -> u64`
(src/main.rs:42-54).

If `time_running < time_enabled` the source computes
`((count as u128) * (time_enabled as u128) / (time_running as u128)) as u64`:
the `u128` product is taken `% U128` (u128 wrap-around semantics), the `u128`
division by `time_running = 0` panics in Rust (modelled as `none`), and the
final `as u64` cast truncates `% U64`. Otherwise `count` is returned
unchanged. -/
def scale (c : CountAndTime) : Option Nat :=
  if c.time_running < c.time_enabled then
    if c.time_running = 0 then
      none
    else
      some ((c.count * c.time_enabled % U128) / c.time_running % U64)
  else
    some c.count

/-- A product of two numbers below `2^64` stays below `2^128`, so the `u128`
intermediate in `scale` never wraps. -/
theorem mul_lt_U128 {a b : Nat} (ha : a < U64) (hb : b < U64) :
    a * b < U128 := by
  have h := Nat.mul_lt_mul'' ha hb
  calc a * b < U64 * U64 := h
    _ = U128 := by norm_num [U64, U128]

/-- C1: for `u64` inputs with `0 < time_running < time_enabled`, `scale`
returns `floor(count * time_enabled / time_running)` computed exactly over
the 128-bit intermediate (no wrap-around), truncated back to the native
64-bit width. -/
theorem scale_extrapolates (c : CountAndTime)
    (hc : c.count < U64) (he : c.time_enabled < U64)
    (hpos : 0 < c.time_running) (hlt : c.time_running < c.time_enabled) :
    scale c = some (c.count * c.time_enabled / c.time_running % U64) := by
  unfold scale
  rw [if_pos hlt, if_neg (Nat.pos_iff_ne_zero.mp hpos)]
  rw [Nat.mod_eq_of_lt (mul_lt_U128 hc he)]

/-- Witness for C1: `scale ⟨6, 10, 4⟩ = some 15 = some (6 * 10 / 4 % 2^64)`. -/
theorem scale_extrapolates_witness :
    scale ⟨6, 10, 4⟩ = some (6 * 10 / 4 % U64) :=
  scale_extrapolates ⟨6, 10, 4⟩ (by norm_num [U64]) (by norm_num [U64])
    (by norm_num) (by norm_num)

/-- C2: when `time_running == time_enabled > 0` (counter fully scheduled),
`scale` returns `count` unchanged. -/
theorem scale_identity (c : CountAndTime)
    (heq : c.time_running = c.time_enabled) (hpos : 0 < c.time_enabled) :
    scale c = some c.count := by
  unfold scale
  rw [if_neg]
  omega

/-- Witness for C2: `scale ⟨7, 5, 5⟩ = some 7`. -/
theorem scale_identity_witness :
    scale ⟨7, 5, 5⟩ = some 7 :=
  scale_identity ⟨7, 5, 5⟩ rfl (by norm_num)

/-- C3: when `time_running = 0` while `time_enabled > 0`, `scale` reaches the
unguarded `u128` division by zero (modelled as `none`, the Rust panic): no
branch returns `0` or an error value for this input. -/
theorem scale_div_by_zero (c : CountAndTime)
    (hz : c.time_running = 0) (hpos : 0 < c.time_enabled) :
    scale c = none := by
  unfold scale
  rw [if_pos (by omega), if_pos hz]

/-- Witness for C3: `scale ⟨3, 5, 0⟩` panics (is `none`). -/
theorem scale_div_by_zero_witness :
    scale ⟨3, 5, 0⟩ = none :=
  scale_div_by_zero ⟨3, 5, 0⟩ rfl (by norm_num)

/-- `struct Measure` (src/main.rs:35-40): one record per input file, three
`u64` fields. -/
structure Measure where
  ref_cycles : Nat
  instructions : Nat
  cpu_time : Nat
deriving Repr, DecidableEq

/-- Building the `Measure` for one file (src/main.rs:79-83): both raw reads
are scaled independently, while `cpu_time` is the raw `time_enabled` of the
ref-cycles counter. After `disable()` the counter state is frozen, so the
source's second `read_count_and_time()` of `ref_cycles` observes the same
tuple as the first; reads are modelled as pure observations of that frozen
state. A `none` from `scale` (the division-by-zero panic) propagates. -/
def mkMeasure (refCycles instrs : CountAndTime) : Option Measure :=
  match scale refCycles, scale instrs with
  | some r, some i => some ⟨r, i, refCycles.time_enabled⟩
  | _, _ => none

/-- Accumulator-based model of `str::split_whitespace` (src/main.rs:67):
the list of maximal non-whitespace runs of the command template. -/
def splitWSAux : List Char → List Char → List (List Char)
  | [], cur => if cur.isEmpty then [] else [cur.reverse]
  | c :: cs, cur =>
    if c.isWhitespace then
      if cur.isEmpty then splitWSAux cs []
      else cur.reverse :: splitWSAux cs []
    else splitWSAux cs (c :: cur)

/-- `cli_options.command.split_whitespace()` collected as a list of tokens. -/
def splitWhitespace (l : List Char) : List (List Char) :=
  splitWSAux l []

/-- Errors terminating a `record` invocation. The `panic` constructors model
Rust panics (`expect("Non-empty command")`, `u128` division by zero), the
others the `?`-propagated `anyhow` errors. -/
inductive RecError where
  | buildFailed
  | panicEmptyCommand
  | spawnFailed
  | panicDivByZero
  | outputExists
deriving Repr, DecidableEq

/-- Environment describing one measured run of the external command: the
result of `command.status()` (`Except.error ()` models a failure to spawn,
`Except.ok code` a spawned child with exit status `code`), and the frozen
post-`disable` state of each hardware counter. -/
structure FileOutcome where
  spawn : Except Unit Int
  refCycles : CountAndTime
  instrs : CountAndTime

/-- `HashMap::insert` semantics on the association-list model of the
ResultSet: the new binding replaces any previous binding of the key. -/
def insertRS (res : List (String × Measure)) (k : String) (m : Measure) :
    List (String × Measure) :=
  (k, m) :: res.filter (fun p => p.1 ≠ k)

/-- `HashMap::get` on the association-list model of the ResultSet. -/
def lookupRS (rs : List (String × Measure)) (k : String) : Option Measure :=
  (rs.find? (fun p => p.1 == k)).map Prod.snd

/-- One iteration of the measurement loop (src/main.rs:66-84): split the
command template and take its first token (`expect("Non-empty command")`
panics when there is none), spawn the command and wait (`status()?` is fatal
only when spawning fails; the exit status is bound but never inspected),
then disable, read and scale both counters and insert the record. -/
def recordStep (template : List Char) (env : String → FileOutcome)
    (res : List (String × Measure)) (file : String) :
    Except RecError (List (String × Measure)) :=
  match splitWhitespace template with
  | [] => .error .panicEmptyCommand
  | _cmd :: _args =>
    match (env file).spawn with
    | .error _ => .error .spawnFailed
    | .ok _status =>
      match mkMeasure (env file).refCycles (env file).instrs with
      | none => .error .panicDivByZero
      | some m => .ok (insertRS res file m)

/-- `fn record` up to persistence (src/main.rs:56-85): build the two
counters (either `build()?` failing is fatal before any measurement), then
fold the measurement loop over the input files starting from the empty
ResultSet. -/
def record (buildRefOk buildInstrOk : Bool) (template : List Char)
    (files : List String) (env : String → FileOutcome) :
    Except RecError (List (String × Measure)) :=
  if buildRefOk then
    if buildInstrOk then
      files.foldlM (recordStep template env) []
    else .error .buildFailed
  else .error .buildFailed

/-- The persisted artifact's structure (the `serde_json` value tree): only
the constructors the ResultSet serialization produces are needed — `u64`
numbers and string-keyed objects. Pretty-printing to text is injective on
this tree, so round-trip fidelity is settled at the value-tree level. -/
inductive Json where
  | num : Nat → Json
  | obj : List (String × Json) → Json

/-- Derived `Serialize` for `Measure`: an object with exactly the three
numeric fields, in declaration order. -/
def serializeMeasure (m : Measure) : Json :=
  .obj [("ref_cycles", .num m.ref_cycles),
        ("instructions", .num m.instructions),
        ("cpu_time", .num m.cpu_time)]

/-- Extract a JSON number. -/
def jsonNum? : Json → Option Nat
  | .num n => some n
  | .obj _ => none

/-- Field lookup inside a JSON object. -/
def jsonField (l : List (String × Json)) (k : String) : Option Json :=
  (l.find? (fun p => p.1 == k)).map Prod.snd

/-- Derived `Deserialize` for `Measure`: all three fields must be present
as numbers. -/
def parseMeasure : Json → Option Measure
  | .obj l => do
    let r ← jsonField l "ref_cycles" >>= jsonNum?
    let i ← jsonField l "instructions" >>= jsonNum?
    let t ← jsonField l "cpu_time" >>= jsonNum?
    some ⟨r, i, t⟩
  | .num _ => none

/-- `serde_json::to_writer_pretty(output, &res)` (src/main.rs:90): the
ResultSet as an object keyed by the path strings. -/
def serializeResultSet (rs : List (String × Measure)) : Json :=
  .obj (rs.map (fun p => (p.1, serializeMeasure p.2)))

/-- Parse the entries of the artifact's top-level object in sequence; any
entry failing to parse fails the whole deserialization. -/
def parseEntries : List (String × Json) → Option (List (String × Measure))
  | [] => some []
  | p :: l => do
    let m ← parseMeasure p.2
    let rest ← parseEntries l
    some ((p.1, m) :: rest)

/-- `serde_json::from_str::<HashMap<&Path, Measure>>` (src/main.rs:113-114):
each object entry must parse to a `Measure`; the string keys become paths
(identity in this model, paths carried as their rendered strings). -/
def parseResultSet : Json → Option (List (String × Measure))
  | .obj l => parseEntries l
  | .num _ => none

/-- Filesystem model for the persistence step: the files that exist, as a
map from path to stored artifact. -/
def FS : Type := List (String × Json)

/-- Whether a file already exists at `p`. -/
def hasFile (fs : FS) (p : String) : Bool :=
  fs.any (fun q => q.1 == p)

/-- `OpenOptions::new().create_new(true).write(true).open(...)` followed by
`serde_json::to_writer_pretty` (src/main.rs:86-90): exclusive creation —
when the destination already exists the open fails and the filesystem is
untouched; otherwise the serialized ResultSet is written to a new file. -/
def persistResultSet (fs : FS) (out : String)
    (res : List (String × Measure)) : FS × Option RecError :=
  if hasFile fs out then (fs, some .outputExists)
  else ((out, serializeResultSet res) :: fs, none)

/-- `fn record` including persistence: run the measurement loop, then
persist the completed ResultSet with exclusive creation. Returns the
resulting filesystem alongside the outcome. -/
def recordRun (fs : FS) (out : String) (buildRefOk buildInstrOk : Bool)
    (template : List Char) (files : List String)
    (env : String → FileOutcome) :
    FS × Except RecError (List (String × Measure)) :=
  match record buildRefOk buildInstrOk template files env with
  | .error e => (fs, .error e)
  | .ok res =>
    match persistResultSet fs out res with
    | (fs2, some e) => (fs2, .error e)
    | (fs2, none) => (fs2, .ok res)

/-- The comparison loop (src/main.rs:134-142): iterate the base ResultSet's
entries; for each key also bound in the compared ResultSet emit one row
carrying the key and the two records the `rel_diff` cells are computed
from; keys absent from the compared set are skipped with `continue`. -/
def compareRows (base compared : List (String × Measure)) :
    List (String × Measure × Measure) :=
  base.filterMap
    (fun p => (lookupRS compared p.1).map (fun cm => (p.1, p.2, cm)))

/-- C7: the recorded `cpu_time` field is the raw `time_enabled` value read
from the reference-cycles counter; no scaling is applied to it. -/
theorem cpu_time_is_raw_time_enabled (refc instr : CountAndTime)
    (m : Measure) (h : mkMeasure refc instr = some m) :
    m.cpu_time = refc.time_enabled := by
  unfold mkMeasure at h
  cases hr : scale refc <;> cases hi : scale instr <;>
    rw [hr, hi] at h <;> simp at h
  rw [← h]

/-- Witness for C7: `mkMeasure ⟨5, 9, 9⟩ ⟨2, 9, 9⟩` records `cpu_time = 9`,
the raw `time_enabled` of the ref-cycles read. -/
theorem cpu_time_is_raw_time_enabled_witness :
    mkMeasure ⟨5, 9, 9⟩ ⟨2, 9, 9⟩ = some ⟨5, 2, 9⟩ ∧
      (Measure.mk 5 2 9).cpu_time = (CountAndTime.mk 5 9 9).time_enabled :=
  ⟨rfl, cpu_time_is_raw_time_enabled ⟨5, 9, 9⟩ ⟨2, 9, 9⟩ ⟨5, 2, 9⟩ rfl⟩

/-- C8: a successfully spawned command whose exit status is non-zero (any
`code`) does not abort the loop iteration — the counters are still read,
scaled and the record inserted exactly as for a zero exit — whereas a
failure to spawn (`command.status()` returning an error) is fatal. -/
theorem nonzero_exit_recorded (template : List Char)
    (env env2 : String → FileOutcome) (res : List (String × Measure))
    (file : String) (code : Int) (m : Measure)
    (hcmd : splitWhitespace template ≠ [])
    (hspawn : (env file).spawn = Except.ok code)
    (hmeas : mkMeasure (env file).refCycles (env file).instrs = some m)
    (hspawn2 : (env2 file).spawn = Except.error ()) :
    recordStep template env res file = Except.ok (insertRS res file m) ∧
      recordStep template env2 res file
        = Except.error RecError.spawnFailed := by
  obtain ⟨t, ts, ht⟩ : ∃ t ts, splitWhitespace template = t :: ts := by
    cases h : splitWhitespace template with
    | nil => exact absurd h hcmd
    | cons t ts => exact ⟨t, ts, rfl⟩
  constructor
  · simp [recordStep, ht, hspawn, hmeas]
  · simp [recordStep, ht, hspawn2]

/-- Witness for C8: with command `"x"`, exit status `1` still records
`⟨3, 4, 7⟩` under key `"a"`, while a spawn failure yields the fatal error. -/
theorem nonzero_exit_recorded_witness :
    recordStep [Char.ofNat 120]
        (fun _ => ⟨Except.ok 1, ⟨3, 7, 7⟩, ⟨4, 7, 7⟩⟩) [] (String.mk [Char.ofNat 97])
      = Except.ok (insertRS [] (String.mk [Char.ofNat 97]) ⟨3, 4, 7⟩) ∧
      recordStep [Char.ofNat 120]
        (fun _ => ⟨Except.error (), ⟨3, 7, 7⟩, ⟨4, 7, 7⟩⟩) [] (String.mk [Char.ofNat 97])
      = Except.error RecError.spawnFailed :=
  nonzero_exit_recorded [Char.ofNat 120]
    (fun _ => ⟨Except.ok 1, ⟨3, 7, 7⟩, ⟨4, 7, 7⟩⟩)
    (fun _ => ⟨Except.error (), ⟨3, 7, 7⟩, ⟨4, 7, 7⟩⟩)
    [] (String.mk [Char.ofNat 97]) 1 ⟨3, 4, 7⟩ (by decide) rfl rfl rfl

/-- C10: an all-whitespace (or empty) command template with a non-empty
input-file list makes `record` hit the `expect("Non-empty command")` panic
while processing the first file, after both counters have been built
successfully (both build flags `true`) — it does not return an ordinary
error result. -/
theorem empty_command_panics (template : List Char) (files : List String)
    (env : String → FileOutcome) (f : String) (rest : List String)
    (htok : splitWhitespace template = [])
    (hfiles : files = f :: rest) :
    record true true template files env
      = Except.error RecError.panicEmptyCommand := by
  subst hfiles
  simp [record, recordStep, htok]
  rfl

/-- Witness for C10: the single-space template `" "` with one input file
panics. -/
theorem empty_command_panics_witness :
    splitWhitespace [Char.ofNat 32] = [] ∧
      record true true [Char.ofNat 32] [String.mk [Char.ofNat 97]]
          (fun _ => ⟨Except.ok 0, ⟨0, 0, 0⟩, ⟨0, 0, 0⟩⟩)
        = Except.error RecError.panicEmptyCommand :=
  ⟨by decide,
    empty_command_panics [Char.ofNat 32] [String.mk [Char.ofNat 97]]
      (fun _ => ⟨Except.ok 0, ⟨0, 0, 0⟩, ⟨0, 0, 0⟩⟩)
      (String.mk [Char.ofNat 97]) [] (by decide) rfl⟩

/-- C6: when the output destination already holds a file, persisting the
completed ResultSet fails with the fatal exclusive-create error and the
whole filesystem — in particular the existing file's contents — is left
unchanged. -/
theorem exclusive_create_preserves_file (fs : FS) (out : String)
    (b1 b2 : Bool) (template : List Char) (files : List String)
    (env : String → FileOutcome) (res : List (String × Measure))
    (hex : hasFile fs out = true)
    (hok : record b1 b2 template files env = Except.ok res) :
    recordRun fs out b1 b2 template files env
      = (fs, Except.error RecError.outputExists) := by
  simp [recordRun, hok, persistResultSet, hex]

/-- Witness for C6: a filesystem already holding `"o"` is returned intact
with the exclusive-create error, even though the measurement loop
succeeded. -/
theorem exclusive_create_preserves_file_witness :
    hasFile [(String.mk [Char.ofNat 111], Json.obj [])] (String.mk [Char.ofNat 111]) = true ∧
      recordRun [(String.mk [Char.ofNat 111], Json.obj [])] (String.mk [Char.ofNat 111])
          true true [Char.ofNat 120] [String.mk [Char.ofNat 97]]
          (fun _ => ⟨Except.ok 0, ⟨3, 7, 7⟩, ⟨4, 7, 7⟩⟩)
        = ([(String.mk [Char.ofNat 111], Json.obj [])],
            Except.error RecError.outputExists) :=
  ⟨rfl,
    exclusive_create_preserves_file
      [(String.mk [Char.ofNat 111], Json.obj [])] (String.mk [Char.ofNat 111])
      true true [Char.ofNat 120] [String.mk [Char.ofNat 97]]
      (fun _ => ⟨Except.ok 0, ⟨3, 7, 7⟩, ⟨4, 7, 7⟩⟩)
      [(String.mk [Char.ofNat 97], ⟨3, 4, 7⟩)] rfl rfl⟩

/-- One record round-trips through its JSON object exactly. -/
theorem parseMeasure_serializeMeasure (m : Measure) :
    parseMeasure (serializeMeasure m) = some m := rfl

/-- C9: serializing any ResultSet to the persisted artifact format and
deserializing the artifact yields exactly the original — identical integer
values for all three fields of every record and the identical key set (in
order), keys carried as their path strings. -/
theorem resultset_roundtrip (rs : List (String × Measure)) :
    parseResultSet (serializeResultSet rs) = some rs := by
  induction rs with
  | nil => rfl
  | cons p rs ih =>
    obtain ⟨k, m⟩ := p
    simp only [serializeResultSet, parseResultSet, List.map_cons,
      parseEntries, parseMeasure_serializeMeasure] at ih ⊢
    rw [ih]
    rfl

/-- A key has a binding in the association-list model exactly when it
occurs among the stored keys. -/
theorem lookupRS_isSome_iff (rs : List (String × Measure)) (k : String) :
    (lookupRS rs k).isSome = true ↔ k ∈ rs.map Prod.fst := by
  simp [lookupRS, List.find?_isSome, List.mem_map]

/-- The report's key column is the base ResultSet's key sequence filtered
to the keys also bound in the compared ResultSet. -/
theorem compareRows_keys (base compared : List (String × Measure)) :
    (compareRows base compared).map Prod.fst
      = (base.map Prod.fst).filter
          (fun k => (lookupRS compared k).isSome) := by
  induction base with
  | nil => rfl
  | cons p base ih =>
    simp only [compareRows, List.filterMap_cons, List.map_cons,
      List.filter_cons] at ih ⊢
    cases h : lookupRS compared p.1 with
    | none => simpa [h] using ih
    | some cm => simpa [h] using ih

/-- C5: the delta report has exactly one row per key present in both
ResultSets: the comparator walks the base ResultSet's keys (the report's
key column is that sequence filtered by membership in the compared set),
and, with the base keys distinct as a `HashMap` guarantees, every key bound
in both sets heads exactly one row while a key missing from either set
heads none — silently dropped, no error. -/
theorem compare_key_intersection (base compared : List (String × Measure)) :
    ((compareRows base compared).map Prod.fst
        = (base.map Prod.fst).filter
            (fun k => (lookupRS compared k).isSome)) ∧
      ((base.map Prod.fst).Nodup →
        ∀ k : String,
          ((compareRows base compared).map Prod.fst).count k
            = if (lookupRS base k).isSome ∧ (lookupRS compared k).isSome
              then 1 else 0) := by
  refine ⟨compareRows_keys base compared, fun hnd k => ?_⟩
  rw [compareRows_keys]
  by_cases hb : (lookupRS base k).isSome = true
  · by_cases hc : (lookupRS compared k).isSome = true
    · rw [if_pos ⟨hb, hc⟩]
      have hmem : k ∈ (base.map Prod.fst).filter
          (fun k => (lookupRS compared k).isSome) :=
        List.mem_filter.mpr ⟨(lookupRS_isSome_iff base k).mp hb, hc⟩
      exact List.count_eq_one_of_mem (hnd.filter _) hmem
    · rw [if_neg (fun hand => hc hand.2)]
      refine List.count_eq_zero.mpr fun hmem => ?_
      exact hc (List.mem_filter.mp hmem).2
  · rw [if_neg (fun hand => hb hand.1)]
    refine List.count_eq_zero.mpr fun hmem => ?_
    exact hb ((lookupRS_isSome_iff base k).mpr (List.mem_filter.mp hmem).1)

/-- Witness for C5: base `{a.wat, b.wat}`, compared `{a.wat}` — the report
holds exactly one row, keyed `a.wat`. -/
theorem compare_key_intersection_witness :
    ((compareRows
        [(String.mk [Char.ofNat 97], ⟨100, 1, 1⟩), (String.mk [Char.ofNat 98], ⟨2, 2, 2⟩)]
        [(String.mk [Char.ofNat 97], ⟨110, 1, 1⟩)]).map Prod.fst).count
        (String.mk [Char.ofNat 97])
      = if (lookupRS
              [(String.mk [Char.ofNat 97], ⟨100, 1, 1⟩), (String.mk [Char.ofNat 98], ⟨2, 2, 2⟩)]
              (String.mk [Char.ofNat 97])).isSome ∧
            (lookupRS [(String.mk [Char.ofNat 97], ⟨110, 1, 1⟩)]
              (String.mk [Char.ofNat 97])).isSome
        then 1 else 0 :=
  (compare_key_intersection
      [(String.mk [Char.ofNat 97], ⟨100, 1, 1⟩), (String.mk [Char.ofNat 98], ⟨2, 2, 2⟩)]
      [(String.mk [Char.ofNat 97], ⟨110, 1, 1⟩)]).2 (by decide)
    (String.mk [Char.ofNat 97])

end PerfBench
